import Mathlib

/-!
# Verification of the seogen generate→validate→repair / bulk-queue core

Shallow embedding of the repository's core logic:

* `slugify`, `_assemble_response`, `_validate_output`,
  `_generate_service_city_content` and `_repair_output`
  from `src/app/ai_generator.py`;
* `try_claim_bulk_item`, `mark_bulk_items_imported`,
  `recompute_bulk_job_counters` and `check_can_generate`
  from `src/app/supabase_client.py`;
* the per-item worker pass `_process_item_async` from `src/worker.py`;
* the `/generate-page` endpoint from `src/app/main.py`.

The external persistence layer (Supabase REST) is modelled as the
conditional-update row store the spec describes (§6): a PATCH with filters
atomically updates the matching rows and reports how many were affected.
The external LLM is modelled as an oracle supplying the outcome of each
call.  Pure Python string operations are modelled over `List Char`
(ASCII-faithful: Python's `str.lower` and the regex classes
`[a-zA-Z0-9]`/`\s` are modelled on their ASCII behaviour, which is what
all concrete inputs in this repository exercise).
-/

/-! ## Python-style character and string helpers -/

/-- ASCII whitespace, matching Python's `\s` / `str.split()` / `str.strip()`
on ASCII text: space, tab, newline, carriage return, vertical tab, form feed. -/
def pyIsSpace (c : Char) : Bool :=
  c.toNat == 32 || c.toNat == 9 || c.toNat == 10 || c.toNat == 13 ||
  c.toNat == 11 || c.toNat == 12

/-- `[A-Z]`. -/
def isUpperAZ (c : Char) : Bool := 65 ≤ c.toNat && c.toNat ≤ 90

/-- `[a-z]`. -/
def isLowerAZ (c : Char) : Bool := 97 ≤ c.toNat && c.toNat ≤ 122

/-- `[0-9]`. -/
def isDigit09 (c : Char) : Bool := 48 ≤ c.toNat && c.toNat ≤ 57

/-- The regex class `[a-zA-Z0-9]` used by `slugify`'s cleaning step. -/
def pyAlnum (c : Char) : Bool := isLowerAZ c || isUpperAZ c || isDigit09 c

/-- Python `str.lower()` on one ASCII character. -/
def pyToLower (c : Char) : Char :=
  if isUpperAZ c then Char.ofNat (c.toNat + 32) else c

/-- Python `str.strip()`: drop leading and trailing whitespace. -/
def pyStrip (s : List Char) : List Char :=
  ((s.dropWhile pyIsSpace).reverse.dropWhile pyIsSpace).reverse

/-- State machine for `re.sub(r'\s+', '-', s)`: `inRun` records whether the
previous character belonged to the current whitespace run (so a run emits a
single hyphen at its first character). -/
def collapseWsAux : Bool → List Char → List Char
  | _, [] => []
  | inRun, c :: rest =>
    if pyIsSpace c then
      if inRun then collapseWsAux true rest
      else '-' :: collapseWsAux true rest
    else c :: collapseWsAux false rest

/-- `re.sub(r'\s+', '-', s)`: replace each maximal whitespace run by one hyphen. -/
def collapseWs (l : List Char) : List Char := collapseWsAux false l

/-- Python `s.rstrip('-')`. -/
def rstripHyphen (s : List Char) : List Char :=
  (s.reverse.dropWhile (fun c => c == '-')).reverse

/-- Accumulator pass for Python `str.split()`: `acc` holds the reversed
characters of the word currently being read. -/
def splitWsAux : List Char → List Char → List (List Char)
  | [], acc => if acc.isEmpty then [] else [acc.reverse]
  | c :: rest, acc =>
    if pyIsSpace c then
      if acc.isEmpty then splitWsAux rest []
      else acc.reverse :: splitWsAux rest []
    else splitWsAux rest (c :: acc)

/-- Python `str.split()` (split on whitespace runs, no empty words). -/
def splitWs (l : List Char) : List (List Char) := splitWsAux l []

/-- Is `needle` a prefix of `hay`? (helper for Python's `in`). -/
def startsWithSeq : List Char → List Char → Bool
  | [], _ => true
  | _ :: _, [] => false
  | a :: as, b :: bs => a == b && startsWithSeq as bs

/-- Python's substring test `needle in hay`. -/
def containsSeq (needle : List Char) : List Char → Bool
  | [] => needle.isEmpty
  | b :: bs => startsWithSeq needle (b :: bs) || containsSeq needle bs

/-! ## Slugifier (`AIContentGenerator.slugify`, src/app/ai_generator.py:166-174) -/

/-- `re.sub(r'[^a-zA-Z0-9\s]', '', s.strip().lower())` — strip, lowercase,
drop everything outside `[a-zA-Z0-9\s]`. -/
def cleanPart (s : List Char) : List Char :=
  ((pyStrip s).map pyToLower).filter (fun c => pyAlnum c || pyIsSpace c)

/-- `slugify` on character lists: clean both parts, collapse whitespace to
hyphens, join as `service-city`, cap at 60 chars, strip trailing hyphens. -/
def slugifyL (service city : List Char) : List Char :=
  let service_slug := collapseWs (cleanPart service)
  let city_slug := collapseWs (cleanPart city)
  let slug := service_slug ++ '-' :: city_slug
  rstripHyphen (slug.take 60)

/-- `AIContentGenerator.slugify(service, city)`. -/
def slugify (service city : String) : String :=
  String.mk (slugifyL service.data city.data)

/-- A character allowed by the spec's slug pattern `[a-z0-9-]`. -/
def isSlugChar (c : Char) : Bool := isLowerAZ c || isDigit09 c || c == '-'

/-! ## Data model (src/app/models.py) -/

/-- `PageData` (src/app/models.py): the fields consumed by the service+city
generation path, the assembler and the validator.  Hub-mode-only fields are
not needed by the embedded functions and are omitted. -/
structure PageData where
  service : String
  city : String
  state : String
  company_name : String
  phone : String
  email : String
  address : String
deriving DecidableEq, Repr

/-- The tagged union of content blocks
(`HeadingBlock`/`ParagraphBlock`/`FAQBlock`/`NAPBlock`/`CTABlock`/`ListBlock`). -/
inductive PageBlock where
  | heading (level : Nat) (text : String)
  | paragraph (text : String)
  | faq (question : String) (answer : String)
  | nap (business_name : String) (phone : String) (email : String) (address : String)
  | cta (text : String) (phone : String)
  | list (items : List String)
deriving DecidableEq, Repr

/-- The `type` discriminator field each block model carries. -/
def PageBlock.type : PageBlock → String
  | .heading .. => "heading"
  | .paragraph .. => "paragraph"
  | .faq .. => "faq"
  | .nap .. => "nap"
  | .cta .. => "cta"
  | .list .. => "list"

/-- Python duck typing: `hasattr(block, 'text') and block.text` — heading,
paragraph and CTA blocks carry a `text` attribute. -/
def PageBlock.textAttr : PageBlock → Option String
  | .heading _ t => some t
  | .paragraph t => some t
  | .cta t _ => some t
  | _ => none

/-- `hasattr(block, 'question')`. -/
def PageBlock.questionAttr : PageBlock → Option String
  | .faq q _ => some q
  | _ => none

/-- `hasattr(block, 'answer')`. -/
def PageBlock.answerAttr : PageBlock → Option String
  | .faq _ a => some a
  | _ => none

/-- `PageBlock.level` for heading blocks (0 otherwise; only queried on headings). -/
def PageBlock.level : PageBlock → Nat
  | .heading l _ => l
  | _ => 0

/-- `GeneratePageResponse` (src/app/models.py). -/
structure GeneratePageResponse where
  title : String
  meta_description : String
  slug : String
  blocks : List PageBlock
deriving DecidableEq, Repr

/-- One entry of the LLM JSON's `sections` array (`section.get("heading","")`,
`section.get("paragraph","")`). -/
structure SectionJson where
  heading : String
  paragraph : String
deriving DecidableEq, Repr

/-- One entry of the LLM JSON's `faqs` array. -/
structure FaqJson where
  question : String
  answer : String
deriving DecidableEq, Repr

/-- The LLM JSON's optional `structural_variance` object:
`variance.get("cta_after_section", 5)` / `variance.get("contact_order", "phone_first")`.
`none` models a missing key. -/
structure StructuralVariance where
  cta_after_section : Option Int
  contact_order : Option String
deriving DecidableEq, Repr

/-- The parsed LLM content payload, with the `dict.get` defaults of
`_assemble_response` already reflected in the field defaults. -/
structure ContentJson where
  meta_description : String := ""
  sections : List SectionJson := []
  faqs : List FaqJson := []
  cta_text : String := ""
  structural_variance : StructuralVariance := ⟨none, none⟩
deriving DecidableEq, Repr

/-! ## Response assembler (`AIContentGenerator._assemble_response`,
src/app/ai_generator.py:602-671) -/

/-- Blocks contributed by one `sections` entry (1-based index `idx`), plus the
CTA when `idx == cta_after_section`.  Mirrors the body of the `for idx,
section in enumerate(sections, start=1)` loop. -/
def sectionBlocks (data : PageData) (cta_text : String) (cta_after_section : Int)
    (idxSection : Nat × SectionJson) : List PageBlock :=
  (if idxSection.2.heading ≠ "" then [PageBlock.heading 2 idxSection.2.heading] else []) ++
  (if idxSection.2.paragraph ≠ "" then [PageBlock.paragraph idxSection.2.paragraph] else []) ++
  (if (idxSection.1 : Int) = cta_after_section then
    [PageBlock.cta cta_text data.phone] else [])

/-- `_assemble_response(content_json, data)`: deterministic `slug`, `title`
and H1 come from `data` only; sections, FAQs, NAP and CTA placement follow
the source.  (`random.choice(['details','h3'])` only picks `format_style`,
which `_create_faq_block` ignores, so it does not affect the result.) -/
def assemble_response (content_json : ContentJson) (data : PageData) :
    GeneratePageResponse :=
  let slug := slugify data.service data.city
  let title := data.service ++ " in " ++ data.city ++ " | " ++ data.company_name
  let h1_text := "Expert " ++ data.service ++ " in " ++ data.city
  let cta_after_section := content_json.structural_variance.cta_after_section.getD 5
  let sections := content_json.sections
  let secBlocks :=
    ((sections.enumFrom 1).map (sectionBlocks data content_json.cta_text cta_after_section)).flatten
  let faqBlocks := content_json.faqs.map (fun f => PageBlock.faq f.question f.answer)
  let napBlocks :=
    if data.company_name ≠ "" ∨ data.address ≠ "" ∨ data.phone ≠ "" ∨ data.email ≠ "" then
      [PageBlock.nap data.company_name data.phone data.email data.address]
    else []
  let endCta :=
    if cta_after_section > (sections.length : Int) then
      [PageBlock.cta content_json.cta_text data.phone]
    else []
  { title := title
    meta_description := content_json.meta_description
    slug := slug
    blocks := PageBlock.heading 1 h1_text :: (secBlocks ++ faqBlocks ++ napBlocks ++ endCta) }

/-! ## Validator (`AIContentGenerator._validate_output`,
src/app/ai_generator.py:718-818) -/

/-- `FORBIDDEN_PHRASES` (src/app/ai_generator.py:23-26). -/
def FORBIDDEN_PHRASES : List String :=
  ["seo", "keyword", "word count", "structure", "first 100 words",
   "this page", "this article", "in this section"]

/-- `FORBIDDEN_MARKETING_FILLER` (src/app/ai_generator.py:29-34). -/
def FORBIDDEN_MARKETING_FILLER : List String :=
  ["top-notch", "premier", "high-quality solutions", "trusted experts",
   "we understand the importance of", "industry-leading", "best-in-class",
   "cutting-edge", "state-of-the-art", "world-class", "best in the area",
   "leading provider", "your trusted", "your go-to", "number one choice"]

/-- `FORBIDDEN_REGION_PHRASES` (src/app/ai_generator.py:62-68). -/
def FORBIDDEN_REGION_PHRASES : List String :=
  ["south florida", "miami-dade", "broward", "salt air", "coastal"]

/-- `len(s.split())`: Python word count. -/
def wordCount (s : String) : Nat := (splitWs s.data).length

/-- The ASCII single-quote character (U+0027), used by the f-string
violation messages to quote the offending phrase. -/
def singleQuote : String := String.mk [Char.ofNat 39]

/-- `phrase.lower() in combined_text` where `combined_text` is already
lowercased. -/
def phraseHit (combined : List Char) (phrase : String) : Bool :=
  containsSeq (phrase.data.map pyToLower) combined

/-- The text fragments one block contributes to `all_text`
(`hasattr`/truthiness checks of the source, in attribute order
text, question, answer). -/
def blockTexts (b : PageBlock) : List String :=
  (match b.textAttr with
   | some t => if t ≠ "" then [t] else []
   | none => []) ++
  (match b.questionAttr with
   | some q => if q ≠ "" then [q] else []
   | none => []) ++
  (match b.answerAttr with
   | some a => if a ≠ "" then [a] else []
   | none => [])

/-- `_validate_block_schemas`: in this typed embedding every block is one of
the five model classes and its `type` field matches its class by
construction, so each branch of the source loop is unreachable and the
function always returns `[]`. -/
def validate_block_schemas (_blocks : List PageBlock) : List String := []

/-- `_validate_output(response, data)`: the collect-all battery, with the
error lists concatenated in the order the source appends them. -/
def validate_output (response : GeneratePageResponse) (data : PageData) : List String :=
  let paragraph_blocks := response.blocks.filter (fun b => b.type == "paragraph")
  let faq_blocks := response.blocks.filter (fun b => b.type == "faq")
  let total_words : Nat :=
    (paragraph_blocks.map (fun b =>
      match b.textAttr with
      | some t => if t ≠ "" then wordCount t else 0
      | none => 0)).sum +
    (faq_blocks.map (fun b =>
      (match b.answerAttr with
       | some a => if a ≠ "" then wordCount a else 0
       | none => 0) +
      (match b.questionAttr with
       | some q => if q ≠ "" then wordCount q else 0
       | none => 0))).sum
  let e1 :=
    if total_words < 300 then
      ["Total word count " ++ toString total_words ++ " < 300"] else []
  let all_text := response.title :: response.meta_description ::
    (response.blocks.map blockTexts).flatten
  let combined_text := (String.intercalate " " all_text).data.map pyToLower
  let e2 := (FORBIDDEN_PHRASES.filter (phraseHit combined_text)).map
    (fun p => "Contains forbidden phrase: " ++ singleQuote ++ p ++ singleQuote)
  let e2b := (FORBIDDEN_REGION_PHRASES.filter (phraseHit combined_text)).map
    (fun p => "Contains forbidden region phrase: " ++ singleQuote ++ p ++ singleQuote)
  let e2c := (FORBIDDEN_MARKETING_FILLER.filter (phraseHit combined_text)).map
    (fun p => "Contains forbidden marketing filler: " ++ singleQuote ++ p ++ singleQuote)
  let e3 :=
    match paragraph_blocks with
    | [] => []
    | b :: _ =>
      let first_para := b.textAttr.getD ""
      let first_150_words :=
        (List.intercalate [' '] ((splitWs first_para.data).take 150)).map pyToLower
      if containsSeq (data.service.data.map pyToLower) first_150_words &&
         containsSeq (data.city.data.map pyToLower) first_150_words then []
      else ["First paragraph missing service + city in first 150 words"]
  let meta_desc := response.meta_description.data.map pyToLower
  let e4 :=
    if containsSeq (data.service.data.map pyToLower) meta_desc &&
       containsSeq (data.city.data.map pyToLower) meta_desc then []
    else ["Meta description missing service + city"]
  let headingCount := response.blocks.countP (fun b => b.type == "heading")
  let paragraphCount := response.blocks.countP (fun b => b.type == "paragraph")
  let faqCount := response.blocks.countP (fun b => b.type == "faq")
  let napCount := response.blocks.countP (fun b => b.type == "nap")
  let ctaCount := response.blocks.countP (fun b => b.type == "cta")
  let sectionCount :=
    response.blocks.countP (fun b => b.type == "heading" && b.level == 2)
  let e6 :=
    (if headingCount ≠ 7 then
      ["Expected 7 headings (1 H1 + 6 H2s), got " ++ toString headingCount] else []) ++
    (if paragraphCount ≠ 6 then
      ["Expected 6 paragraphs, got " ++ toString paragraphCount] else []) ++
    (if faqCount < 3 ∨ faqCount > 5 then
      ["Expected 3-5 FAQs, got " ++ toString faqCount] else []) ++
    (if sectionCount ≠ 6 then
      ["Expected 6 H2 sections (including Why This Service and When to Choose), got " ++
        toString sectionCount] else []) ++
    (if napCount > 1 then
      ["Expected 0 or 1 NAP, got " ++ toString napCount] else []) ++
    (if ctaCount ≠ 1 then
      ["Expected 1 CTA, got " ++ toString ctaCount] else [])
  let e7 := validate_block_schemas response.blocks
  e1 ++ e2 ++ e2b ++ e2c ++ e3 ++ e4 ++ e6 ++ e7

/-! ## Generate→validate→repair loop
(`AIContentGenerator._generate_service_city_content`,
src/app/ai_generator.py:101-135, and `_repair_output`, :847-963) -/

/-- `_generate_service_city_content(data)` with the two possible LLM calls
abstracted as oracles: `llm_gen` is the outcome of the
`_call_openai_generation` call, `llm_repair` the outcome of the (single)
`_repair_output` call; an `Except.error` carries the exception message the
call raised.  Returns the result together with the number of LLM calls
actually made.  (The Census `local_data` fetch is not an LLM call and only
feeds prompt text; the prompts themselves are content, not behaviour.) -/
def generate_service_city_content (data : PageData)
    (llm_gen llm_repair : Except String ContentJson) :
    Except String GeneratePageResponse × Nat :=
  match llm_gen with
  | .error e => (.error ("AI content generation failed: " ++ e), 1)
  | .ok content_json =>
    let response := assemble_response content_json data
    let validation_errors := validate_output response data
    if validation_errors.isEmpty then (.ok response, 1)
    else
      match llm_repair with
      | .error e => (.error ("AI content generation failed: " ++ e), 2)
      | .ok repaired_content =>
        let response2 := assemble_response repaired_content data
        let final_validation_errors := validate_output response2 data
        if final_validation_errors.isEmpty then (.ok response2, 2)
        else
          (.error ("AI content generation failed: " ++
            ("Content generation failed validation even after repair: " ++
              toString final_validation_errors)), 2)

/-! ## Bulk item store and claim protocol
(`SupabaseClient.try_claim_bulk_item`, src/app/supabase_client.py:379-390;
`mark_bulk_items_imported`, :340-361) -/

/-- Status values of a `bulk_job_items` row. -/
inductive ItemStatus where
  | pending | running | completed | failed | imported
deriving DecidableEq, Repr

/-- A `bulk_job_items` row (the columns the embedded operations touch). -/
structure BulkItemRow where
  id : String
  job_id : String
  status : ItemStatus
  attempts : Nat
deriving DecidableEq, Repr

/-- Effect of the claim PATCH (`id=eq.{item_id}&status=eq.pending`, body
`{"status": "running", "attempts": attempts+1}`) on one row.  Note the
attempts value written is the caller's stale read plus one, as in the
source. -/
def claimUpdateRow (item_id : String) (attempts : Nat) (r : BulkItemRow) : BulkItemRow :=
  if r.id = item_id ∧ r.status = .pending then
    { r with status := .running, attempts := attempts + 1 }
  else r

/-- Number of rows the claim PATCH's filter matches (= rows affected, since
the store applies the conditional update atomically). -/
def claimAffected (item_id : String) (store : List BulkItemRow) : Nat :=
  store.countP (fun r => r.id == item_id && r.status == ItemStatus.pending)

/-- `try_claim_bulk_item(item_id, attempts)` against the conditional-update
store stub: the PATCH is applied atomically and the call returns `true`
exactly when one row was affected. -/
def try_claim_bulk_item (item_id : String) (attempts : Nat)
    (store : List BulkItemRow) : List BulkItemRow × Bool :=
  (store.map (claimUpdateRow item_id attempts), claimAffected item_id store == 1)

/-- `_chunk_list(values, chunk_size)` (src/app/supabase_client.py:10-14).
Modelled for positive chunk sizes (the source always passes 100); a zero
size is clamped to 1. -/
def chunkListAux : Nat → List α → Nat → List (List α)
  | _, [], _ => []
  | 0, vs, _ => [vs]
  | fuel + 1, v :: vs, chunk_size =>
    (v :: vs).take (chunk_size.max 1) ::
      chunkListAux fuel ((v :: vs).drop (chunk_size.max 1)) chunk_size

/-- `_chunk_list` via a fuel counter (the fuel is the list length, which
always suffices since each step drops at least one element). -/
def chunk_list (values : List α) (chunk_size : Nat) : List (List α) :=
  chunkListAux values.length values chunk_size

/-- Effect of one ack PATCH
(`job_id=eq.{job_id}&id=in.(chunk)&status=eq.completed`, body
`{"status": "imported"}`) on one row. -/
def importPatchRow (job_id : String) (ids : List String) (r : BulkItemRow) : BulkItemRow :=
  if r.job_id = job_id ∧ r.id ∈ ids ∧ r.status = .completed then
    { r with status := .imported }
  else r

/-- `mark_bulk_items_imported(job_id, item_ids)` against the store stub:
the ids are chunked by 100 and one conditional PATCH is issued per chunk;
the returned count accumulates `len(chunk)` per successful PATCH, as in the
source. -/
def mark_bulk_items_imported (job_id : String) (item_ids : List String)
    (store : List BulkItemRow) : List BulkItemRow × Nat :=
  (chunk_list item_ids 100).foldl
    (fun acc chunk => (acc.1.map (importPatchRow job_id chunk), acc.2 + chunk.length))
    (store, 0)

/-! ## Worker per-item pass (`_process_item_async`, src/worker.py:52-200) -/

/-- `MAX_ATTEMPTS` (src/worker.py:15). -/
def MAX_ATTEMPTS : Nat := 3

/-- The item state `_process_item_async` reads and writes. -/
structure WorkerItem where
  status : ItemStatus
  attempts : Nat
  error : Option String
deriving DecidableEq, Repr

/-- One pass of `_process_item_async` over an item, under the side
conditions the surrounding code guarantees on the failure-policy path (job
exists and is not canceled/failed, license active, quota available);
`genResult` is the outcome of `ai_generator.generate_page_content`, with
`Except.error e` carrying the raised exception's message.  Returns the
updated item and whether a generation attempt was made.  `attempts` is read
from the item before claiming (src/worker.py:57) and the retry decision
compares that stale value against 2 (src/worker.py:170). -/
def process_item (genResult : Except String Unit) (it : WorkerItem) :
    WorkerItem × Bool :=
  if it.attempts ≥ MAX_ATTEMPTS then
    ({ it with status := .failed, error := some "Max attempts exceeded" }, false)
  else if it.status ≠ .pending then
    (it, false)
  else
    let attempts := it.attempts
    match genResult with
    | .ok _ =>
      ({ status := .completed, attempts := attempts + 1, error := it.error }, true)
    | .error e =>
      if attempts < 2 then
        ({ status := .pending, attempts := attempts + 1,
           error := some ("Retry " ++ toString (attempts + 1) ++ ": " ++ e) }, true)
      else
        ({ status := .failed, attempts := attempts + 1, error := some e }, true)

/-- `n` polling passes over an item whose generation always fails with
message `e`; also counts the generation attempts actually made. -/
def run_failing_worker (e : String) : Nat → WorkerItem → WorkerItem × Nat
  | 0, it => (it, 0)
  | n + 1, it =>
    let step := process_item (.error e) it
    let rest := run_failing_worker e n step.1
    (rest.1, (if step.2 then 1 else 0) + rest.2)

/-! ## Job counter recomputation (`SupabaseClient.recompute_bulk_job_counters`,
src/app/supabase_client.py:410-466) -/

/-- Status values of a `bulk_jobs` row. -/
inductive JobStatus where
  | running | complete | canceled | failed
deriving DecidableEq, Repr

/-- A `bulk_jobs` row: `total_items` plus the stored status and counters. -/
structure BulkJob where
  total_items : Int
  status : JobStatus
  processed : Nat
  completed : Nat
  failed : Nat
deriving DecidableEq, Repr

/-- The payload `recompute_bulk_job_counters` PATCHes back (with `status`
resolved as `new_status or current_status`, as in the returned payload). -/
structure RecomputeResult where
  processed : Nat
  completed : Nat
  failed : Nat
  status : JobStatus
deriving DecidableEq, Repr

/-- `recompute_bulk_job_counters(job_id)` given the scanned item statuses
and the current job row: counters are recomputed from the scan alone;
status becomes `complete` when `total_items > 0` and
`completed + failed >= total_items`, else `running`, unless the job is
already canceled or failed. -/
def recompute_bulk_job_counters (statuses : List ItemStatus) (job : BulkJob) :
    RecomputeResult :=
  let processed := statuses.countP (fun s =>
    s == ItemStatus.completed || s == ItemStatus.failed || s == ItemStatus.imported)
  let completed := statuses.countP (fun s =>
    s == ItemStatus.completed || s == ItemStatus.imported)
  let failedCount := statuses.countP (fun s => s == ItemStatus.failed)
  let new_status : Option JobStatus :=
    if job.status ≠ .canceled ∧ job.status ≠ .failed then
      some (if job.total_items > 0 ∧ (completed + failedCount : Int) ≥ job.total_items then
        .complete
      else .running)
    else none
  { processed := processed
    completed := completed
    failed := failedCount
    status := new_status.getD job.status }

/-! ## License gate (`SupabaseClient.check_can_generate`,
src/app/supabase_client.py:80-169) -/

/-- Outcome of one Supabase REST read: the request raised (`exn`), returned
a non-200 status (`bad`), or returned 200 with a payload (`ok`). -/
inductive HResp (α : Type) where
  | exn
  | bad
  | ok (a : α)
deriving DecidableEq, Repr

/-- The subscription row joined onto an api_key
(`page_limit`/`monthly_generation_limit`, read with `int(...)`). -/
structure Subscription where
  page_limit : Int
  monthly_generation_limit : Int
deriving DecidableEq, Repr

/-- The persistence reads `check_can_generate` performs: the api_key row
lookup (each row carrying its joined subscription, `none` when null), the
subscription's api_key-id listing, and per-key usage_logs counts (`ok n` =
200 with `n` rows) for the lifetime and current-period queries. -/
structure CanGenEnv where
  api_keys : HResp (List (Option Subscription))
  sub_keys : HResp (List String)
  total_usage : String → HResp Nat
  period_usage : String → HResp Nat

/-- `len(resp.json()) if resp.status_code == 200 else 0`, with `none` for a
raised exception (which aborts the whole check). -/
def usageRespCount : HResp Nat → Option Nat
  | .exn => none
  | .bad => some 0
  | .ok n => some n

/-- The `for key_id in api_key_ids` accumulation of `total_pages` and
`period_pages`. -/
def usageCounts (env : CanGenEnv) : List String → Option (Nat × Nat)
  | [] => some (0, 0)
  | k :: rest => do
    let t ← usageRespCount (env.total_usage k)
    let p ← usageRespCount (env.period_usage k)
    let tp ← usageCounts env rest
    pure (t + tp.1, p + tp.2)

/-- `api_key_ids = [...] if sub_keys_response.status_code == 200 else
[api_key_id]`; `none` when the listing request raised. -/
def effectiveKeyIds (env : CanGenEnv) (api_key_id : String) : Option (List String) :=
  match env.sub_keys with
  | .exn => none
  | .bad => some [api_key_id]
  | .ok ids => some ids

/-- `check_can_generate(api_key_id)` (allowed flag and reason; the stats
dict is reporting only and does not affect the decision).  `none` from the
inner computation models a raised exception reaching the outer
`except`, which returns `(False, f"Error: {e}")`. -/
def check_can_generate (env : CanGenEnv) (api_key_id : String) : Bool × String :=
  let inner : Option (Bool × String) :=
    match env.api_keys with
    | .exn => none
    | .bad => some (false, "API key not found")
    | .ok [] => some (false, "API key not found")
    | .ok (subOpt :: _) =>
      match subOpt with
      | none => some (false, "No active subscription")
      | some sub => do
        let ids ← effectiveKeyIds env api_key_id
        let counts ← usageCounts env ids
        if (counts.1 : Int) ≥ sub.page_limit then
          pure (false, "Page limit reached (" ++ toString counts.1 ++ "/" ++
            toString sub.page_limit ++ "). Delete pages to generate more.")
        else if (counts.2 : Int) ≥ sub.monthly_generation_limit then
          pure (false, "Monthly generation limit reached (" ++ toString counts.2 ++ "/" ++
            toString sub.monthly_generation_limit ++ "). Resets next month.")
        else
          pure (true, "Can generate")
  match inner with
  | none => (false, "Error: lookup raised")
  | some r => r

/-! ## `/generate-page` endpoint (`generate_page`, src/app/main.py:90-188) -/

/-- The api_key row fields `_require_active_license` and the endpoint use. -/
structure LicenseData where
  id : String
  status : String
deriving DecidableEq, Repr

/-- The collaborator results the endpoint consumes: the license lookup, the
`check_can_generate` verdict, and the outcome of
`ai_generator.generate_page_content(request.data)`. -/
structure GenerateEnv where
  license : Option LicenseData
  can_generate : Bool × String
  gen_result : Except String GeneratePageResponse

/-- `GeneratePageRequest` (src/app/models.py:38-42). -/
structure GenPageRequest where
  license_key : String
  data : PageData
  preview : Bool
deriving Repr

/-- Observable persistence side effects of one `/generate-page` call:
whether `check_can_generate` was invoked, and the `log_usage` actions
written. -/
structure EndpointEffects where
  can_generate_checked : Bool
  usage_actions : List String
deriving DecidableEq, Repr

/-- The `/generate-page` handler: HTTP errors are `(status_code, detail)`.
Preview mode (src/app/main.py:110-127) generates and returns directly;
the full path checks the dual limits first and logs usage afterwards. -/
def generate_page (env : GenerateEnv) (request : GenPageRequest) :
    Except (Nat × String) GeneratePageResponse × EndpointEffects :=
  match env.license with
  | none => (.error (403, "License key not found"), ⟨false, []⟩)
  | some license_data =>
    if license_data.status ≠ "active" then
      (.error (403, "License is not active"), ⟨false, []⟩)
    else if request.preview then
      match env.gen_result with
      | .ok page_content => (.ok page_content, ⟨false, []⟩)
      | .error e =>
        (.error (500, "AI preview generation failed: " ++ e), ⟨false, []⟩)
    else
      if ¬ env.can_generate.1 then
        (.error (402, env.can_generate.2), ⟨true, []⟩)
      else
        match env.gen_result with
        | .ok page_content =>
          (.ok page_content, ⟨true, ["ai_page_generation_success"]⟩)
        | .error e =>
          (.error (500, "AI content generation failed: " ++ e),
            ⟨true, ["ai_page_generation_failed"]⟩)

/-! ## Concrete environments used by counterexamples and witnesses -/

/-- A lookup environment in which the api-key and sub-key reads succeed
(one key, subscription limits 500/500) but every usage_logs read returns a
non-200 status. -/
def envFailedUsageReads : CanGenEnv :=
  ⟨.ok [some ⟨500, 500⟩], .ok ["k1"], fun _ => .bad, fun _ => .bad⟩

/-! # Theorems -/

/-! ## Character-level helper lemmas -/

theorem toNat_charOfNat (n : Nat) (h : n < 55296) : (Char.ofNat n).toNat = n := by
  have hv : n.isValidChar := Or.inl h
  unfold Char.ofNat
  rw [dif_pos hv]
  rfl

theorem isUpperAZ_pyToLower (c : Char) : isUpperAZ (pyToLower c) = false := by
  unfold pyToLower
  split
  · rename_i h
    have h1 : 65 ≤ c.toNat ∧ c.toNat ≤ 90 := by
      simpa [isUpperAZ] using h
    have ht : (Char.ofNat (c.toNat + 32)).toNat = c.toNat + 32 :=
      toNat_charOfNat _ (by omega)
    have h2 : ¬ (c.toNat + 32 ≤ 90) := by omega
    simp [isUpperAZ, ht, h2]
  · rename_i h
    simpa [isUpperAZ] using h

theorem mem_collapseWsAux {c : Char} (l : List Char) : ∀ (b : Bool),
    c ∈ collapseWsAux b l → c = '-' ∨ (c ∈ l ∧ pyIsSpace c = false) := by
  induction l with
  | nil => intro b h; simp [collapseWsAux] at h
  | cons x rest ih =>
    intro b h
    unfold collapseWsAux at h
    by_cases hx : pyIsSpace x
    · rw [if_pos hx] at h
      cases b with
      | true =>
        rcases ih true h with h1 | ⟨h2, h3⟩
        · exact Or.inl h1
        · exact Or.inr ⟨List.mem_cons_of_mem _ h2, h3⟩
      | false =>
        rcases List.mem_cons.mp h with h1 | h1
        · exact Or.inl h1
        · rcases ih true h1 with h2 | ⟨h3, h4⟩
          · exact Or.inl h2
          · exact Or.inr ⟨List.mem_cons_of_mem _ h3, h4⟩
    · rw [if_neg hx] at h
      rcases List.mem_cons.mp h with h1 | h1
      · subst h1
        exact Or.inr ⟨List.mem_cons_self _ _, by simpa using hx⟩
      · rcases ih false h1 with h2 | ⟨h3, h4⟩
        · exact Or.inl h2
        · exact Or.inr ⟨List.mem_cons_of_mem _ h3, h4⟩

theorem mem_cleanPart {c : Char} {s : List Char} (h : c ∈ cleanPart s) :
    (pyAlnum c || pyIsSpace c) = true ∧ isUpperAZ c = false := by
  unfold cleanPart at h
  have h1 := List.mem_filter.mp h
  refine ⟨h1.2, ?_⟩
  rcases List.mem_map.mp h1.1 with ⟨x, _, hx⟩
  rw [← hx]
  exact isUpperAZ_pyToLower x

theorem mem_rstripHyphen {c : Char} {l : List Char} (h : c ∈ rstripHyphen l) :
    c ∈ l := by
  unfold rstripHyphen at h
  have h1 := List.mem_reverse.mp h
  exact List.mem_reverse.mp (List.dropWhile_subset _ h1)

theorem isSlugChar_of_clean_nonspace {c : Char}
    (hclean : (pyAlnum c || pyIsSpace c) = true)
    (hupper : isUpperAZ c = false)
    (hspace : pyIsSpace c = false) : isSlugChar c = true := by
  unfold pyAlnum at hclean
  rw [hspace, hupper] at hclean
  unfold isSlugChar
  rcases Bool.or_eq_true_iff.mp hclean with h | h
  · rcases Bool.or_eq_true_iff.mp h with h1 | h1
    · rcases Bool.or_eq_true_iff.mp h1 with h2 | h2
      · simp [h2]
      · simp at h2
    · simp [h1]
  · simp at h

theorem slugifyL_chars {service city : List Char} {c : Char}
    (h : c ∈ slugifyL service city) : isSlugChar c = true := by
  unfold slugifyL at h
  have h1 := List.take_subset _ _ (mem_rstripHyphen h)
  rcases List.mem_append.mp h1 with h2 | h2
  · rcases mem_collapseWsAux _ false h2 with h3 | ⟨h4, h5⟩
    · simp [isSlugChar, h3]
    · rcases mem_cleanPart h4 with ⟨h6, h7⟩
      exact isSlugChar_of_clean_nonspace h6 h7 h5
  · rcases List.mem_cons.mp h2 with h3 | h3
    · simp [isSlugChar, h3]
    · rcases mem_collapseWsAux _ false h3 with h4 | ⟨h5, h6⟩
      · simp [isSlugChar, h4]
      · rcases mem_cleanPart h5 with ⟨h7, h8⟩
        exact isSlugChar_of_clean_nonspace h7 h8 h6

theorem length_rstripHyphen_le (l : List Char) :
    (rstripHyphen l).length ≤ l.length := by
  unfold rstripHyphen
  rw [List.length_reverse]
  calc (l.reverse.dropWhile (fun c => c == '-')).length
      ≤ l.reverse.length := (List.dropWhile_sublist _).length_le
    _ = l.length := List.length_reverse _

theorem slugifyL_length_le (service city : List Char) :
    (slugifyL service city).length ≤ 60 := by
  unfold slugifyL
  exact le_trans (length_rstripHyphen_le _) (List.length_take_le _ _)

theorem rstripHyphen_getLast (l : List Char) :
    (rstripHyphen l).getLast? ≠ some '-' := by
  unfold rstripHyphen
  rw [List.getLast?_reverse]
  intro hcontra
  have hnot := List.head?_dropWhile_not (fun c => c == '-') l.reverse
  rw [hcontra] at hnot
  simp at hnot

theorem slugifyL_getLast (service city : List Char) :
    (slugifyL service city).getLast? ≠ some '-' := by
  unfold slugifyL
  exact rstripHyphen_getLast _

/-! ## C6 — slugify -/

/-- C6 (counterexample): the claim says the output of `slugify` always
matches `^[a-z0-9-]+$` with no leading hyphen, but
`slugify("!", "x") = "-x"`: a service that cleans to the empty string
leaves the joining hyphen at the front (and `rstrip` only removes trailing
hyphens), so the output starts with a hyphen. -/
theorem slugify_leading_hyphen_counterexample :
    slugify "!" "x" = "-x" ∧ (slugify "!" "x").data.head? = some '-' := by
  constructor
  · decide
  · decide

/-- C6 (amended): `slugify` is a pure total function (hence deterministic
and never failing) computed exactly as the claim describes; its output has
length at most 60, contains only characters from `[a-z0-9-]`, and never
ends in a hyphen — but it may begin with a hyphen (or be empty) when the
cleaned service (resp. both parts) is empty. -/
theorem slugify_output_shape (service city : String) :
    (∀ c ∈ (slugify service city).data, isSlugChar c = true) ∧
    (slugify service city).data.length ≤ 60 ∧
    (slugify service city).data.getLast? ≠ some '-' := by
  refine ⟨fun c hc => slugifyL_chars hc, ?_, ?_⟩
  · exact slugifyL_length_le _ _
  · exact slugifyL_getLast _ _

/-- C6 witness: the amended theorem applied at
`slugify "Gutter Repair" "Tulsa" = "gutter-repair-tulsa"`. -/
theorem slugify_output_shape_witness :
    slugify "Gutter Repair" "Tulsa" = "gutter-repair-tulsa" ∧
    'g' ∈ (slugify "Gutter Repair" "Tulsa").data ∧ isSlugChar 'g' = true :=
  ⟨by decide, by decide,
    (slugify_output_shape "Gutter Repair" "Tulsa").1 'g' (by decide)⟩

/-! ## C4 — deterministic slug / title / H1 -/

/-- C4: for every request and every pair of LLM content payloads, the
assembled `slug`, `title` and first block (the H1 heading) are identical
across the two payloads and are computed only from the request:
`slug = slugify(service, city)`,
`title = "{service} in {city} | {company_name}"`, and the H1 text is
`"Expert {service} in {city}"`.  No value from the LLM payload reaches
them. -/
theorem assemble_deterministic_fields (data : PageData) (cj1 cj2 : ContentJson) :
    (assemble_response cj1 data).slug = (assemble_response cj2 data).slug ∧
    (assemble_response cj1 data).title = (assemble_response cj2 data).title ∧
    (assemble_response cj1 data).blocks.head? = (assemble_response cj2 data).blocks.head? ∧
    (assemble_response cj1 data).slug = slugify data.service data.city ∧
    (assemble_response cj1 data).title =
      data.service ++ " in " ++ data.city ++ " | " ++ data.company_name ∧
    (assemble_response cj1 data).blocks.head? =
      some (PageBlock.heading 1 ("Expert " ++ data.service ++ " in " ++ data.city)) :=
  ⟨rfl, rfl, rfl, rfl, rfl, rfl⟩

/-! ## C8 — validator is collect-all; missing CTA always reported -/

/-- C8: the validator is collect-all — the error list is the concatenation
of every check battery in source order, so for every response with no CTA
block (whatever else is wrong with it) the returned list contains the
wrong-CTA-count violation "Expected 1 CTA, got 0". -/
theorem validator_reports_missing_cta (response : GeneratePageResponse) (data : PageData)
    (h : ∀ b ∈ response.blocks, b.type ≠ "cta") :
    "Expected 1 CTA, got 0" ∈ validate_output response data := by
  have hc : response.blocks.countP (fun b => b.type == "cta") = 0 :=
    List.countP_eq_zero.mpr (fun b hb => by simpa using h b hb)
  simp only [validate_output, hc]
  apply List.mem_append_left
  apply List.mem_append_right
  apply List.mem_append_right
  rw [if_pos (show (0 : Nat) ≠ 1 by decide)]
  exact List.mem_singleton.mpr (by decide)

/-- C8 witness: the theorem applied to a concrete response with no CTA
block (which also violates several other checks, showing the CTA violation
is still collected). -/
theorem validator_reports_missing_cta_witness :
    (∀ b ∈ (⟨"t", "m", "s", []⟩ : GeneratePageResponse).blocks, b.type ≠ "cta") ∧
    "Expected 1 CTA, got 0" ∈
      validate_output ⟨"t", "m", "s", []⟩ ⟨"a", "b", "c", "", "", "", ""⟩ :=
  ⟨by decide, validator_reports_missing_cta _ _ (by decide)⟩

/-! ## C3 — at most one repair pass, at most 2 LLM calls -/

/-- C3: `_generate_service_city_content` makes at most 2 LLM calls for any
oracle outcomes; and whenever both the generation output and the repaired
output fail validation (in particular whenever the validator rejects every
output), exactly 2 LLM calls are made and the request fails with the
validation-failed-after-repair error — no third call happens. -/
theorem repair_loop_call_bound (data : PageData) (g r : Except String ContentJson) :
    (generate_service_city_content data g r).2 ≤ 2 ∧
    (∀ cjg cjr, g = .ok cjg → r = .ok cjr →
      validate_output (assemble_response cjg data) data ≠ [] →
      validate_output (assemble_response cjr data) data ≠ [] →
      (generate_service_city_content data g r).2 = 2 ∧
      (generate_service_city_content data g r).1 =
        .error ("AI content generation failed: " ++
          ("Content generation failed validation even after repair: " ++
            toString (validate_output (assemble_response cjr data) data)))) := by
  constructor
  · rcases g with e | cj
    · simp [generate_service_city_content]
    · rcases r with e2 | cj2 <;>
        · simp only [generate_service_city_content]
          split <;> simp <;> split <;> simp
  · intro cjg cjr hg hr hvg hvr
    subst hg
    subst hr
    have h1 : (validate_output (assemble_response cjg data) data).isEmpty = false :=
      List.isEmpty_eq_false.mpr hvg
    have h2 : (validate_output (assemble_response cjr data) data).isEmpty = false :=
      List.isEmpty_eq_false.mpr hvr
    simp only [generate_service_city_content, h1, h2]
    exact ⟨rfl, rfl⟩

/-- C3 witness: the bound theorem applied to concrete oracle outcomes whose
assembled outputs both fail validation (an empty payload misses the
required heading counts, among others). -/
theorem repair_loop_call_bound_witness :
    validate_output (assemble_response {} ⟨"a", "b", "c", "", "", "", ""⟩)
      ⟨"a", "b", "c", "", "", "", ""⟩ ≠ [] ∧
    (generate_service_city_content ⟨"a", "b", "c", "", "", "", ""⟩
      (.ok {}) (.ok {})).2 = 2 :=
  ⟨by decide,
    ((repair_loop_call_bound ⟨"a", "b", "c", "", "", "", ""⟩ (.ok {}) (.ok {})).2
      {} {} rfl rfl (by decide) (by decide)).1⟩

/-! ## C1 — atomic claim exclusivity -/

theorem claimAffected_eq_countP_id (item_id : String) :
    ∀ (store : List BulkItemRow),
      (∀ r ∈ store, r.id = item_id → r.status = .pending) →
      claimAffected item_id store = store.countP (fun r => r.id == item_id) := by
  intro store
  induction store with
  | nil => intro _; rfl
  | cons r rest ih =>
    intro h
    have ih' := ih (fun x hx => h x (List.mem_cons_of_mem _ hx))
    unfold claimAffected at ih' ⊢
    rw [List.countP_cons, List.countP_cons, ih']
    by_cases hid : r.id = item_id
    · have hst := h r (List.mem_cons_self _ _) hid
      simp [hid, hst]
    · simp [hid]

/-- C1: `try_claim_bulk_item` returns true exactly when the conditional
update (status=Running, attempts=attempts+1 where id=itemId and
status=Pending) affected exactly one row; and when two callers claim the
same Pending item and the store applies the two conditional updates
atomically one after the other, the first caller gets true and the second
false. -/
theorem try_claim_exclusive (store : List BulkItemRow) (item_id : String) (a1 a2 : Nat)
    (huniq : store.countP (fun r => r.id == item_id) = 1)
    (hpend : ∀ r ∈ store, r.id = item_id → r.status = .pending) :
    ((try_claim_bulk_item item_id a1 store).2 = true ↔
      claimAffected item_id store = 1) ∧
    (try_claim_bulk_item item_id a1 store).2 = true ∧
    (try_claim_bulk_item item_id a2 (try_claim_bulk_item item_id a1 store).1).2 = false := by
  refine ⟨by simp [try_claim_bulk_item], ?_, ?_⟩
  · simp [try_claim_bulk_item, claimAffected_eq_countP_id item_id store hpend, huniq]
  · have hzero :
        claimAffected item_id (store.map (claimUpdateRow item_id a1)) = 0 := by
      apply List.countP_eq_zero.mpr
      intro x hx
      rcases List.mem_map.mp hx with ⟨r, hr, hmap⟩
      subst hmap
      unfold claimUpdateRow
      by_cases hcond : r.id = item_id ∧ r.status = .pending
      · rw [if_pos hcond]
        simp
      · rw [if_neg hcond]
        have : ¬ r.id = item_id := by
          intro hid
          exact hcond ⟨hid, hpend r hr hid⟩
        simp [this]
    simp [try_claim_bulk_item, hzero]

/-- C1 witness: a one-row store holding a single Pending item; the first
claim succeeds, the second fails. -/
theorem try_claim_exclusive_witness :
    ([⟨"i1", "j1", ItemStatus.pending, 0⟩] : List BulkItemRow).countP
      (fun r => r.id == "i1") = 1 ∧
    (try_claim_bulk_item "i1" 0 [⟨"i1", "j1", ItemStatus.pending, 0⟩]).2 = true ∧
    (try_claim_bulk_item "i1" 0
      (try_claim_bulk_item "i1" 0 [⟨"i1", "j1", ItemStatus.pending, 0⟩]).1).2 = false :=
  ⟨by decide,
    (try_claim_exclusive [⟨"i1", "j1", ItemStatus.pending, 0⟩] "i1" 0 0
      (by decide) (by decide)).2.1,
    (try_claim_exclusive [⟨"i1", "j1", ItemStatus.pending, 0⟩] "i1" 0 0
      (by decide) (by decide)).2.2⟩

/-! ## C2 — worker retry policy -/

/-- C2 (counterexample): the claim says a persistently failing item
undergoes at most two generation attempts in total (exactly one retry
cycle), but the worker compares the pre-claim attempts value against 2
(`attempts < 2`), so after two failed generation attempts the item is
reset to Pending once more, and a persistently failing item undergoes
three generation attempts before being marked Failed. -/
theorem retry_policy_counterexample :
    (run_failing_worker "generation failed" 2 ⟨.pending, 0, none⟩).2 = 2 ∧
    (run_failing_worker "generation failed" 2 ⟨.pending, 0, none⟩).1.status =
      ItemStatus.pending ∧
    (run_failing_worker "generation failed" 3 ⟨.pending, 0, none⟩).2 = 3 ∧
    (run_failing_worker "generation failed" 3 ⟨.pending, 0, none⟩).1.status =
      ItemStatus.failed := by
  refine ⟨by decide, by decide, by decide, by decide⟩

/-- C2 (amended): on failure the worker resets the item to Pending with
the error recorded exactly when the attempts counter read before claiming
is below 2, and marks it Failed permanently otherwise; the decision
depends only on that counter, never on the error message — allowing two
retry cycles, so a persistently failing item undergoes three generation
attempts in total. -/
theorem retry_policy_amended (e : String) (a : Nat) (h : a < MAX_ATTEMPTS) :
    (process_item (.error e) ⟨.pending, a, none⟩).1.status =
      (if a < 2 then ItemStatus.pending else ItemStatus.failed) ∧
    (process_item (.error e) ⟨.pending, a, none⟩).1.error =
      some (if a < 2 then "Retry " ++ toString (a + 1) ++ ": " ++ e else e) ∧
    (∀ e2, (process_item (.error e2) ⟨.pending, a, none⟩).1.status =
      (process_item (.error e) ⟨.pending, a, none⟩).1.status) ∧
    (run_failing_worker e 3 ⟨.pending, 0, none⟩).1.status = ItemStatus.failed ∧
    (run_failing_worker e 3 ⟨.pending, 0, none⟩).2 = 3 := by
  have hge : ¬ (a ≥ MAX_ATTEMPTS) := by omega
  have hstep : ∀ (e3 : String) (b : Nat) (err : Option String), ¬ (b ≥ MAX_ATTEMPTS) →
      process_item (.error e3) ⟨.pending, b, err⟩ =
        (if b < 2 then
          (⟨.pending, b + 1, some ("Retry " ++ toString (b + 1) ++ ": " ++ e3)⟩, true)
        else (⟨.failed, b + 1, some e3⟩, true)) := by
    intro e3 b err hb
    unfold process_item
    rw [if_neg hb, if_neg (by simp)]
  have hrun : ∀ (e3 : String), run_failing_worker e3 3 ⟨.pending, 0, none⟩ =
      (⟨.failed, 3, some e3⟩, 3) := by
    intro e3
    simp only [run_failing_worker]
    rw [hstep e3 0 _ (by simp [MAX_ATTEMPTS])]
    norm_num
    rw [hstep e3 1 _ (by simp [MAX_ATTEMPTS])]
    norm_num
    rw [hstep e3 2 _ (by simp [MAX_ATTEMPTS])]
    norm_num
  refine ⟨?_, ?_, ?_, ?_, ?_⟩
  · rw [hstep e a none hge]
    by_cases ha2 : a < 2 <;> simp [ha2]
  · rw [hstep e a none hge]
    by_cases ha2 : a < 2 <;> simp [ha2]
  · intro e2
    rw [hstep e a none hge, hstep e2 a none hge]
    by_cases ha2 : a < 2 <;> simp [ha2]
  · rw [hrun e]
  · rw [hrun e]

/-- C2 witness: the amended theorem applied at the boundary value
(attempts read as 2): the item is failed permanently, not retried. -/
theorem retry_policy_amended_witness :
    (2 < MAX_ATTEMPTS) ∧
    (process_item (.error "boom") ⟨.pending, 2, none⟩).1.status =
      (if 2 < 2 then ItemStatus.pending else ItemStatus.failed) :=
  ⟨by decide, (retry_policy_amended "boom" 2 (by decide)).1⟩

/-! ## C7 — counters recomputed from the item scan -/

theorem terminal_partition (statuses : List ItemStatus)
    (h : ∀ s ∈ statuses, s = .completed ∨ s = .failed ∨ s = .imported) :
    statuses.countP (fun s => s == ItemStatus.completed || s == ItemStatus.imported) +
      statuses.countP (fun s => s == ItemStatus.failed) = statuses.length := by
  induction statuses with
  | nil => rfl
  | cons s rest ih =>
    have hs := h s (List.mem_cons_self _ _)
    have ih2 := ih (fun x hx => h x (List.mem_cons_of_mem _ hx))
    rw [List.countP_cons, List.countP_cons, List.length_cons]
    rcases hs with h1 | h1 | h1 <;> subst h1 <;> simp <;> omega

/-- C7: `recompute_bulk_job_counters` derives processed/completed/failed
solely from the scanned item statuses (the stored counters of the job row
are ignored), and once every item of the job is in a terminal status
(Completed, Failed or Imported) with `totalItems = N > 0` and the job not
already Canceled or Failed, the recomputation yields
`completed + failed = N` and job status Complete. -/
theorem recompute_counters_from_scan (statuses : List ItemStatus) (job : BulkJob) :
    (∀ p c f, recompute_bulk_job_counters statuses
        { job with processed := p, completed := c, failed := f } =
      recompute_bulk_job_counters statuses job) ∧
    ((∀ s ∈ statuses, s = .completed ∨ s = .failed ∨ s = .imported) →
      job.total_items = (statuses.length : Int) →
      0 < statuses.length →
      job.status ≠ .canceled → job.status ≠ .failed →
      (recompute_bulk_job_counters statuses job).completed +
        (recompute_bulk_job_counters statuses job).failed = statuses.length ∧
      (recompute_bulk_job_counters statuses job).status = JobStatus.complete) := by
  constructor
  · intro p c f
    rfl
  · intro hterm htot hpos hcanc hfail
    have hpart := terminal_partition statuses hterm
    constructor
    · exact hpart
    · simp only [recompute_bulk_job_counters]
      rw [if_pos ⟨hcanc, hfail⟩]
      simp only [Option.getD_some]
      split
      · rfl
      · rename_i hcond
        exact absurd ⟨by omega, by omega⟩ hcond

/-- C7 witness: a two-item job with one Completed and one Failed item. -/
theorem recompute_counters_witness :
    (recompute_bulk_job_counters [ItemStatus.completed, ItemStatus.failed]
        ⟨2, .running, 0, 0, 0⟩).completed +
      (recompute_bulk_job_counters [ItemStatus.completed, ItemStatus.failed]
        ⟨2, .running, 0, 0, 0⟩).failed = 2 ∧
    (recompute_bulk_job_counters [ItemStatus.completed, ItemStatus.failed]
      ⟨2, .running, 0, 0, 0⟩).status = JobStatus.complete :=
  (recompute_counters_from_scan [ItemStatus.completed, ItemStatus.failed]
    ⟨2, .running, 0, 0, 0⟩).2 (by decide) (by decide) (by decide) (by decide) (by decide)

/-! ## C9 — import acknowledgement: Completed-only, idempotent -/

theorem chunkListAux_flatten :
    ∀ (fuel : Nat) (vs : List α) (n : Nat), vs.length ≤ fuel →
      (chunkListAux fuel vs n).flatten = vs
  | fuel, [], _, _ => by
    cases fuel <;> rfl
  | 0, v :: vs, _, h => by
    simp at h
  | fuel + 1, v :: vs, n, h => by
    unfold chunkListAux
    rw [List.flatten_cons]
    have hdrop : ((v :: vs).drop (n.max 1)).length ≤ fuel := by
      rw [List.length_drop]
      have h1 : 1 ≤ n.max 1 := Nat.le_max_right _ _
      simp only [List.length_cons] at h ⊢
      omega
    rw [chunkListAux_flatten fuel _ n hdrop, List.take_append_drop]

theorem chunk_list_flatten (values : List α) (n : Nat) :
    (chunk_list values n).flatten = values :=
  chunkListAux_flatten _ _ _ (Nat.le_refl _)

theorem importPatchRow_nil (job_id : String) (r : BulkItemRow) :
    importPatchRow job_id [] r = r := by
  unfold importPatchRow
  rw [if_neg]
  intro hcond
  exact absurd hcond.2.1 (List.not_mem_nil _)

theorem importPatchRow_append (job_id : String) (c1 c2 : List String) (r : BulkItemRow) :
    importPatchRow job_id c2 (importPatchRow job_id c1 r) =
      importPatchRow job_id (c1 ++ c2) r := by
  by_cases hj : r.job_id = job_id <;>
    by_cases hs : r.status = ItemStatus.completed <;>
      by_cases h1 : r.id ∈ c1 <;>
        by_cases h2 : r.id ∈ c2 <;>
          simp [importPatchRow, hj, hs, h1, h2]

theorem mark_fold_state (job_id : String) :
    ∀ (chunks : List (List String)) (store : List BulkItemRow) (k : Nat),
      (chunks.foldl
        (fun acc chunk => (acc.1.map (importPatchRow job_id chunk), acc.2 + chunk.length))
        (store, k)).1 = store.map (importPatchRow job_id chunks.flatten)
  | [], store, k => by
    simp only [List.foldl_nil, List.flatten_nil]
    symm
    calc store.map (importPatchRow job_id [])
        = store.map id := List.map_congr_left (fun r _ => importPatchRow_nil job_id r)
      _ = store := List.map_id store
  | c :: cs, store, k => by
    simp only [List.foldl_cons, List.flatten_cons]
    rw [mark_fold_state job_id cs (store.map (importPatchRow job_id c)) (k + c.length)]
    rw [List.map_map]
    exact List.map_congr_left (fun r _ => importPatchRow_append job_id c cs.flatten r)

theorem importPatchRow_idem (job_id : String) (ids : List String) (r : BulkItemRow) :
    importPatchRow job_id ids (importPatchRow job_id ids r) =
      importPatchRow job_id ids r := by
  unfold importPatchRow
  by_cases h : r.job_id = job_id ∧ r.id ∈ ids ∧ r.status = ItemStatus.completed
  · rw [if_pos h, if_neg (by simp)]
  · rw [if_neg h, if_neg h]

/-- C9: `mark_bulk_items_imported` is the per-row conditional patch mapped
over the store (the chunking changes nothing); only rows of the given job
whose id is in the batch and whose status is Completed change, and they
change to Imported; a Failed row is left untouched; and running the
operation a second time with the same ids changes no row. -/
theorem import_ack_completed_only_idempotent (job_id : String) (item_ids : List String)
    (store : List BulkItemRow) :
    (mark_bulk_items_imported job_id item_ids store).1 =
      store.map (importPatchRow job_id item_ids) ∧
    (∀ r, importPatchRow job_id item_ids r ≠ r →
      r.status = ItemStatus.completed ∧
      (importPatchRow job_id item_ids r).status = ItemStatus.imported ∧
      r.job_id = job_id ∧ r.id ∈ item_ids) ∧
    (∀ r, r.status = ItemStatus.failed → importPatchRow job_id item_ids r = r) ∧
    (mark_bulk_items_imported job_id item_ids
        (mark_bulk_items_imported job_id item_ids store).1).1 =
      (mark_bulk_items_imported job_id item_ids store).1 := by
  have hstate : ∀ (s : List BulkItemRow),
      (mark_bulk_items_imported job_id item_ids s).1 =
        s.map (importPatchRow job_id item_ids) := by
    intro s
    unfold mark_bulk_items_imported
    rw [mark_fold_state job_id (chunk_list item_ids 100) s 0, chunk_list_flatten]
  refine ⟨hstate store, ?_, ?_, ?_⟩
  · intro r hne
    by_cases h : r.job_id = job_id ∧ r.id ∈ item_ids ∧ r.status = ItemStatus.completed
    · refine ⟨h.2.2, ?_, h.1, h.2.1⟩
      unfold importPatchRow
      rw [if_pos h]
    · exact absurd (by unfold importPatchRow; rw [if_neg h]) hne
  · intro r hfail
    unfold importPatchRow
    rw [if_neg]
    intro hcond
    rw [hfail] at hcond
    exact absurd hcond.2.2 (by simp)
  · rw [hstate store, hstate (store.map (importPatchRow job_id item_ids)), List.map_map]
    exact List.map_congr_left (fun r _ => importPatchRow_idem job_id item_ids r)

/-- C9 witness: the theorem applied to a store holding one Completed and
one Failed item of the job: the Failed row is untouched by the patch. -/
theorem import_ack_witness :
    ((⟨"i2", "j", ItemStatus.failed, 0⟩ : BulkItemRow).status = ItemStatus.failed) ∧
    importPatchRow "j" ["i1", "i2"] ⟨"i2", "j", ItemStatus.failed, 0⟩ =
      ⟨"i2", "j", ItemStatus.failed, 0⟩ ∧
    (mark_bulk_items_imported "j" ["i1", "i2"]
        [⟨"i1", "j", ItemStatus.completed, 0⟩, ⟨"i2", "j", ItemStatus.failed, 0⟩]).1 =
      [⟨"i1", "j", ItemStatus.imported, 0⟩, ⟨"i2", "j", ItemStatus.failed, 0⟩] :=
  ⟨rfl,
    (import_ack_completed_only_idempotent "j" ["i1", "i2"] []).2.2.1 _ rfl,
    by decide⟩

/-! ## C5 — license gate -/

/-- C5 (counterexample): the claim says any failed persistence read during
the check yields allowed=false (fails closed), but when both usage_logs
reads return a non-200 status the source counts them as 0 pages
(`len(...) if status == 200 else 0`) and the check returns allowed=true:
it fails open for usage-count reads. -/
theorem check_can_generate_fails_open_counterexample :
    envFailedUsageReads.total_usage "k1" = HResp.bad ∧
    envFailedUsageReads.period_usage "k1" = HResp.bad ∧
    check_can_generate envFailedUsageReads "k1" = (true, "Can generate") := by
  refine ⟨rfl, rfl, rfl⟩

/-- C5 (amended): `check_can_generate` returns allowed=true iff the
api-key lookup returns a row carrying a subscription, no persistence read
raises an exception, and the usage totals counted from the readable
usage logs (a non-200 usage read contributing 0, and a non-200 key listing
falling back to the single given key) are strictly below both the page
limit and the monthly limit.  It fails closed on a failed or erroring
api-key lookup and on any raised exception, but a non-200 usage-log read
counts as zero usage rather than denying. -/
theorem check_can_generate_allowed_iff (env : CanGenEnv) (api_key_id : String) :
    (check_can_generate env api_key_id).1 = true ↔
    ∃ (sub : Subscription) (rest : List (Option Subscription)) (ids : List String)
      (t p : Nat),
      env.api_keys = .ok (some sub :: rest) ∧
      effectiveKeyIds env api_key_id = some ids ∧
      usageCounts env ids = some (t, p) ∧
      (t : Int) < sub.page_limit ∧ (p : Int) < sub.monthly_generation_limit := by
  unfold check_can_generate
  cases hak : env.api_keys with
  | exn => simp
  | bad => simp
  | ok rows =>
    cases rows with
    | nil => simp
    | cons subOpt rest =>
      cases subOpt with
      | none => simp
      | some sub =>
        cases hids : effectiveKeyIds env api_key_id with
        | none => simp [Option.bind_eq_bind, Option.some_bind, hids]
        | some ids =>
          cases hcnt : usageCounts env ids with
          | none => simp [Option.bind_eq_bind, Option.some_bind, hcnt]
          | some counts =>
            obtain ⟨t0, p0⟩ := counts
            by_cases h1 : (t0 : Int) ≥ sub.page_limit
            · simp only [Option.bind_eq_bind, Option.some_bind, hcnt]
              rw [if_pos h1]
              constructor
              · intro hfalse
                exact absurd hfalse (by simp)
              · rintro ⟨sub2, rest2, ids2, t2, p2, heq, hids2, hcnt2, hlt1, hlt2⟩
                injection heq with heq2
                injection heq2 with heq3 heq4
                injection heq3 with heq5
                subst heq5
                injection hids2 with hids3
                subst hids3
                rw [hcnt] at hcnt2
                injection hcnt2 with hcnt3
                injection hcnt3 with hta htb
                subst hta
                exact absurd hlt1 (by omega)
            · by_cases h2 : (p0 : Int) ≥ sub.monthly_generation_limit
              · simp only [Option.bind_eq_bind, Option.some_bind, hcnt]
                rw [if_neg h1, if_pos h2]
                constructor
                · intro hfalse
                  exact absurd hfalse (by simp)
                · rintro ⟨sub2, rest2, ids2, t2, p2, heq, hids2, hcnt2, hlt1, hlt2⟩
                  injection heq with heq2
                  injection heq2 with heq3 heq4
                  injection heq3 with heq5
                  subst heq5
                  injection hids2 with hids3
                  subst hids3
                  rw [hcnt] at hcnt2
                  injection hcnt2 with hcnt3
                  injection hcnt3 with hta htb
                  subst htb
                  exact absurd hlt2 (by omega)
              · simp only [Option.bind_eq_bind, Option.some_bind, hcnt]
                rw [if_neg h1, if_neg h2]
                simp only [true_iff]
                refine ⟨sub, rest, ids, t0, p0, rfl, rfl, hcnt, by omega, by omega⟩

/-! ## C10 — preview generations bypass quota and usage logging -/

/-- C10: for a `/generate-page` request with `preview=true` and an active
license, the handler never invokes `check_can_generate` and writes no
usage-log record (so previews count toward neither limit and are blocked
by neither), and it returns the generated content when generation
succeeds. -/
theorem preview_skips_quota_and_logs (env : GenerateEnv) (request : GenPageRequest)
    (l : LicenseData)
    (hlic : env.license = some l) (hact : l.status = "active")
    (hprev : request.preview = true) :
    (generate_page env request).2 = ⟨false, []⟩ ∧
    (∀ page, env.gen_result = .ok page → (generate_page env request).1 = .ok page) ∧
    (∀ e, env.gen_result = .error e →
      (generate_page env request).1 =
        .error (500, "AI preview generation failed: " ++ e)) := by
  have hred : generate_page env request =
      (match env.gen_result with
        | .ok page_content => (.ok page_content, ⟨false, []⟩)
        | .error e =>
          (.error (500, "AI preview generation failed: " ++ e), ⟨false, []⟩)) := by
    simp [generate_page, hlic, hact, hprev]
  rw [hred]
  refine ⟨?_, ?_, ?_⟩
  · cases env.gen_result <;> rfl
  · intro page hgen
    rw [hgen]
  · intro e hgen
    rw [hgen]

/-- C10 witness: the theorem applied to a concrete active-license preview
request. -/
theorem preview_skips_quota_and_logs_witness :
    (generate_page
        ⟨some ⟨"id1", "active"⟩, (true, "Can generate"), .ok ⟨"t", "m", "s", []⟩⟩
        ⟨"key", ⟨"a", "b", "c", "", "", "", ""⟩, true⟩).2 =
      ⟨false, []⟩ ∧
    (generate_page
        ⟨some ⟨"id1", "active"⟩, (true, "Can generate"), .ok ⟨"t", "m", "s", []⟩⟩
        ⟨"key", ⟨"a", "b", "c", "", "", "", ""⟩, true⟩).1 =
      .ok ⟨"t", "m", "s", []⟩ :=
  ⟨(preview_skips_quota_and_logs _ _ ⟨"id1", "active"⟩ rfl rfl rfl).1,
    (preview_skips_quota_and_logs _ _ ⟨"id1", "active"⟩ rfl rfl rfl).2.1 _ rfl⟩
